import Mathlib

/-!
Verification of the tofu remote-dispatch module (tofu/ez/GUI/Main/remote.py)
via a shallow embedding in Lean 4.

Data model:
* process environment values are `Option String` (None when unset);
* filesystem directories are lists of path components, the filesystem a
  list of such directories;
* the remote job run is modelled as an event trace plus an outcome.
-/

namespace Tofu

/-- Python truthiness of an optional string: None and the empty string are
falsy, any non-empty string is truthy. -/
def pyTruthy : Option String → Bool
  | none => false
  | some s => !s.isEmpty

/-- Python str(x) applied to an optional environment value: None renders as
the literal string None, as in f-string interpolation of os.getenv results. -/
def pyStr : Option String → String
  | none => "None"
  | some s => s

/-- Python str.split() with no argument, over the character list: split on
runs of whitespace and discard empty tokens. The accumulator holds the
current token reversed. -/
def pySplitChars : List Char → List Char → List (List Char)
  | [], acc => if acc = [] then [] else [acc.reverse]
  | c :: cs, acc =>
    if c.isWhitespace then
      if acc = [] then pySplitChars cs []
      else acc.reverse :: pySplitChars cs []
    else pySplitChars cs (c :: acc)

/-- Python str.split() with no argument: split on runs of whitespace and
discard empty tokens. -/
def pySplit (s : String) : List String :=
  (pySplitChars s.toList []).map (fun cs => String.mk cs)

/-- Python s.startswith(pre): the code points of pre are an initial
segment of those of s. -/
def pyStartsWith (s pre : String) : Bool :=
  pre.toList.isPrefixOf s.toList

/-- The literal marker scanned for in the result lines. -/
def processedMarker : String := "*** Processed "

/-- Python error kinds that the embedded code can raise. -/
inductive PyErr where
  | indexError
deriving DecidableEq, Repr

deriving instance DecidableEq for Except

/-- The trailing scan of remote_reconstruction: iterate over
reversed(result.results); on the first line starting with the marker,
return line.split()[2] (IndexError when index 2 is out of range); if no
line matches, fall off the loop returning None. -/
def scanResults (results : List String) : Except PyErr (Option String) :=
  match results.reverse.find? (fun l => pyStartsWith l processedMarker) with
  | none => Except.ok none
  | some line =>
    match (pySplit line).get? 2 with
    | some tok => Except.ok (some tok)
    | none => Except.error PyErr.indexError

/-- The connection address built by remote_reconstruction:
the f-string tcp://{os.getenv(SZRPC_HOST)}:{os.getenv(SZRPC_PORT)}. -/
def szrpcAddress (host port : Option String) : String :=
  "tcp://" ++ pyStr host ++ ":" ++ pyStr port

/-- The two callables get_execute can return: the module's own
remote_reconstruction, or the external execute_reconstruction. -/
inductive ExecRoutine where
  | remoteRecon
  | localRecon
deriving DecidableEq, Repr

/-- get_execute(): if os.getenv(SZRPC_HOST) and os.getenv(SZRPC_PORT) are
both truthy, return remote_reconstruction, else execute_reconstruction.
Neither routine is called; only a reference is returned. -/
def get_execute (host port : Option String) : ExecRoutine :=
  if pyTruthy host && pyTruthy port then ExecRoutine.remoteRecon
  else ExecRoutine.localRecon

/-- Rendering of a pathlib.Path from its components, as str() does. -/
def renderPath : List String → String
  | [] => "."
  | [c] => c
  | c :: cs => c ++ "/" ++ renderPath cs

/-- Path.mkdir(exist_ok=True, parents=True): ensure the directory and all
its ancestors exist; never an error, regardless of prior state. -/
def mkdirP (fs : List (List String)) (d : List String) : List (List String) :=
  fs ++ d.inits.filter (fun p => decide (p ∉ fs))

/-- Observable events of one remote_reconstruction run, in program order. -/
inductive Event where
  | connect (addr : String)
  | readyCheck (res : Bool)
  | sleepMs (n : Nat)
  | mkdir (path : List String)
  | exportVals (path : List String) (groups : List String)
  | submit (ezvars : String)
  | connectUpdate
  | wait
  | scan
deriving DecidableEq, Repr

/-- The while-not-ready poll loop: the i-th is_ready() call returns
ready i; between a false check and the next check the code sleeps 1 ms.
Fuel bounds how many checks we observe; the Bool records whether the loop
exited (a check returned true) within the observed fuel. -/
def pollTrace (ready : Nat → Bool) : Nat → Nat → List Event × Bool
  | _, 0 => ([], false)
  | i, fuel + 1 =>
    if ready i then ([Event.readyCheck true], true)
    else
      let rest := pollTrace ready (i + 1) fuel
      (Event.readyCheck false :: Event.sleepMs 1 :: rest.1, rest.2)

/-- The ambient state remote_reconstruction runs against: the environment
variables at call time, the readiness answers of the client, the
filesystem, EZVARS inout output-dir value, and the final result lines. -/
structure World where
  host : Option String
  port : Option String
  ready : Nat → Bool
  fs : List (List String)
  outputDir : List String
  results : List String

/-- Result of a run: the event trace, the final filesystem, and the
outcome (none when the poll loop never exits within the fuel). -/
structure RunResult where
  trace : List Event
  finalFs : List (List String)
  outcome : Option (Except PyErr (Option String))
deriving Repr

/-- The fixed suffix of the trace after the poll loop exits: mkdir the
output dir, export_values to output_dir / tofuez_remote.yaml with the
three group names, client.single(ezvars=str(param_path)), connect the
update callback, wait, then scan the result lines. -/
def postPollEvents (outputDir : List String) : List Event :=
  [Event.mkdir outputDir,
   Event.exportVals (outputDir ++ ["tofuez_remote.yaml"])
     ["ezvars", "tofu", "ezvars_aux"],
   Event.submit (renderPath (outputDir ++ ["tofuez_remote.yaml"])),
   Event.connectUpdate, Event.wait, Event.scan]

/-- remote_reconstruction(): build the address from the environment,
connect the client, poll until ready, make the output directory, export
the parameters, submit the job, stream the log, wait, scan the results. -/
def remote_reconstruction (w : World) (fuel : Nat) : RunResult :=
  let addr := szrpcAddress w.host w.port
  let pr := pollTrace w.ready 0 fuel
  if pr.2 then
    { trace := Event.connect addr :: pr.1 ++ postPollEvents w.outputDir
      finalFs := mkdirP w.fs w.outputDir
      outcome := some (scanResults w.results) }
  else
    { trace := Event.connect addr :: pr.1
      finalFs := w.fs
      outcome := none }

/-- The informational message logged when python-dotenv is missing. -/
def dotenvMessage : String := "Install python-dotenv to enable .env file support."

/-- Observable events of module initialization. -/
inductive InitEvent where
  | infoLog (msg : String)
  | loadDotenv
deriving DecidableEq, Repr

/-- Module initialization: try to import dotenv; on ImportError log an
informational message; otherwise call load_dotenv() once. Never raises. -/
def moduleInit (dotenvAvailable : Bool) : List InitEvent :=
  if dotenvAvailable then [InitEvent.loadDotenv]
  else [InitEvent.infoLog dotenvMessage]

/-! Example worlds used by the witness theorems. -/

/-- Example world: both environment variables set, client immediately
ready, the spec's example result lines. -/
def wEx : World :=
  { host := some "localhost"
    port := some "5555"
    ready := fun _ => true
    fs := []
    outputDir := ["data"]
    results := ["starting", "*** Processed /data/out.tif extra", "done"] }

/-- Example world whose result lines contain no marker line. -/
def wExNoMarker : World :=
  { wEx with results := ["starting", "done"] }

/-- Example world whose only marker line has fewer than three tokens. -/
def wExShort : World :=
  { wEx with results := ["*** Processed "] }

/-- Example world with the host still set but the port unset at call
time. -/
def wExMixed : World :=
  { wEx with port := none }

/-! Helper lemmas. -/

/-- A Python environment value is truthy exactly when it is a set,
non-empty string. -/
theorem pyTruthy_iff (o : Option String) :
    pyTruthy o = true ↔ ∃ s, o = some s ∧ s ≠ "" := by
  cases o with
  | none => simp [pyTruthy]
  | some s =>
    simp only [pyTruthy, Bool.not_eq_true', Bool.eq_false_iff, Ne, String.isEmpty_iff]
    simp

/-- When the poll loop exits within the fuel, its trace is a run of
failed checks and sleeps followed by one successful check. -/
theorem pollTrace_decomp (ready : Nat → Bool) :
    ∀ (fuel i : Nat), (pollTrace ready i fuel).2 = true →
      ∃ pre, (pollTrace ready i fuel).1 = pre ++ [Event.readyCheck true] ∧
        ∀ e ∈ pre, e = Event.readyCheck false ∨ e = Event.sleepMs 1 := by
  intro fuel
  induction fuel with
  | zero => intro i h; simp [pollTrace] at h
  | succ n ih =>
    intro i h
    by_cases hr : ready i
    · exact ⟨[], by simp [pollTrace, hr], by simp⟩
    · simp only [pollTrace, hr, if_false] at h ⊢
      obtain ⟨pre, hpre, hall⟩ := ih (i + 1) h
      refine ⟨Event.readyCheck false :: Event.sleepMs 1 :: pre, by simp [hpre], ?_⟩
      intro e he
      rw [List.mem_cons, List.mem_cons] at he
      rcases he with he | he | he
      · exact Or.inl he
      · exact Or.inr he
      · exact hall e he

/-- Every prefix of the requested directory is present after mkdirP. -/
theorem mem_mkdirP_of_mem_inits (fs : List (List String)) (d p : List String)
    (hp : p ∈ d.inits) : p ∈ mkdirP fs d := by
  unfold mkdirP
  by_cases hin : p ∈ fs
  · exact List.mem_append_left _ hin
  · exact List.mem_append_right _ (List.mem_filter.mpr ⟨hp, by simpa using hin⟩)

/-- The requested directory itself is present after mkdirP. -/
theorem self_mem_mkdirP (fs : List (List String)) (d : List String) :
    d ∈ mkdirP fs d :=
  mem_mkdirP_of_mem_inits fs d d ((List.mem_inits d d).mpr (List.prefix_refl d))

/-- mkdirP is idempotent, mirroring mkdir with exist_ok=True. -/
theorem mkdirP_idem (fs : List (List String)) (d : List String) :
    mkdirP (mkdirP fs d) d = mkdirP fs d := by
  have hnil : d.inits.filter (fun p => decide (p ∉ mkdirP fs d)) = [] := by
    rw [List.filter_eq_nil_iff]
    intro p hp
    simpa using mem_mkdirP_of_mem_inits fs d p hp
  conv_lhs =>
    rw [show mkdirP (mkdirP fs d) d =
          mkdirP fs d ++ d.inits.filter (fun p => decide (p ∉ mkdirP fs d)) from rfl]
  rw [hnil, List.append_nil]

/-- Rendering a path with one extra trailing component appends a slash
and that component, for a non-empty base path. -/
theorem renderPath_append_single (d : List String) (f : String) (hd : d ≠ []) :
    renderPath (d ++ [f]) = renderPath d ++ "/" ++ f := by
  induction d with
  | nil => exact absurd rfl hd
  | cons c cs ih =>
    cases cs with
    | nil => simp [renderPath]
    | cons c2 cs2 =>
      have := ih (by simp)
      simp only [List.cons_append, List.append_eq, renderPath] at this ⊢
      rw [this]
      simp [String.append_assoc]

/-- A successful run's trace decomposes into the connect, the poll
segment, and the fixed post-poll suffix. -/
theorem remote_trace_decomp (w : World) (fuel : Nat)
    (hready : (pollTrace w.ready 0 fuel).2 = true) :
    ∃ pre,
      (remote_reconstruction w fuel).trace =
        Event.connect (szrpcAddress w.host w.port) ::
          (pre ++ [Event.readyCheck true]) ++ postPollEvents w.outputDir ∧
      ∀ e ∈ pre, e = Event.readyCheck false ∨ e = Event.sleepMs 1 := by
  obtain ⟨pre, hpre, hall⟩ := pollTrace_decomp w.ready fuel 0 hready
  exact ⟨pre, by simp [remote_reconstruction, hready, hpre], hall⟩

/-! Claim theorems. -/

/-- C1: get_execute returns the remote routine exactly when both
SZRPC_HOST and SZRPC_PORT are set to non-empty strings, and the local
execute_reconstruction routine in every other case (either variable
unset, or set to the empty string); it only returns a reference, invoking
neither routine. -/
theorem c1_get_execute_decision (host port : Option String) :
    (get_execute host port = ExecRoutine.remoteRecon ↔
      ((∃ h, host = some h ∧ h ≠ "") ∧ ∃ p, port = some p ∧ p ≠ "")) ∧
    (get_execute host port = ExecRoutine.localRecon ↔
      ¬ ((∃ h, host = some h ∧ h ≠ "") ∧ ∃ p, port = some p ∧ p ≠ "")) := by
  have hb : (pyTruthy host && pyTruthy port) = true ↔
      ((∃ h, host = some h ∧ h ≠ "") ∧ ∃ p, port = some p ∧ p ≠ "") := by
    rw [Bool.and_eq_true, pyTruthy_iff, pyTruthy_iff]
  unfold get_execute
  cases hc : pyTruthy host && pyTruthy port
  · rw [← hb]
    simp [hc]
  · rw [← hb]
    simp [hc]

/-- C2: a remote_reconstruction run whose readiness poll exits is, in
strict order: the connect, a poll segment of failed checks and
1-millisecond sleeps ending in a check that reported ready, then mkdir,
then the export write, then the job submission, then connecting the
log-update callback, then wait, then the result scan; in particular no
export write and no submission occurs before the client first reports
ready. -/
theorem c2_remote_order (w : World) (fuel : Nat)
    (hready : (pollTrace w.ready 0 fuel).2 = true) :
    ∃ pre,
      (remote_reconstruction w fuel).trace =
        Event.connect (szrpcAddress w.host w.port) ::
          (pre ++ [Event.readyCheck true]) ++
          [Event.mkdir w.outputDir,
           Event.exportVals (w.outputDir ++ ["tofuez_remote.yaml"])
             ["ezvars", "tofu", "ezvars_aux"],
           Event.submit (renderPath (w.outputDir ++ ["tofuez_remote.yaml"])),
           Event.connectUpdate, Event.wait, Event.scan] ∧
      (∀ e ∈ pre, e = Event.readyCheck false ∨ e = Event.sleepMs 1) ∧
      (∀ p g, Event.exportVals p g ∉ pre) ∧
      (∀ s, Event.submit s ∉ pre) := by
  obtain ⟨pre, hpre, hall⟩ := remote_trace_decomp w fuel hready
  refine ⟨pre, ?_, hall, ?_, ?_⟩
  · rw [hpre]
    simp [postPollEvents]
  · intro p g hmem
    rcases hall _ hmem with h | h <;> simp at h
  · intro s hmem
    rcases hall _ hmem with h | h <;> simp at h

/-- Witness for C2 at a concrete world that is ready at once. -/
theorem c2_witness :
    (pollTrace wEx.ready 0 1).2 = true ∧
    (∃ pre,
      (remote_reconstruction wEx 1).trace =
        Event.connect (szrpcAddress wEx.host wEx.port) ::
          (pre ++ [Event.readyCheck true]) ++
          [Event.mkdir wEx.outputDir,
           Event.exportVals (wEx.outputDir ++ ["tofuez_remote.yaml"])
             ["ezvars", "tofu", "ezvars_aux"],
           Event.submit (renderPath (wEx.outputDir ++ ["tofuez_remote.yaml"])),
           Event.connectUpdate, Event.wait, Event.scan] ∧
      (∀ e ∈ pre, e = Event.readyCheck false ∨ e = Event.sleepMs 1) ∧
      (∀ p g, Event.exportVals p g ∉ pre) ∧
      (∀ s, Event.submit s ∉ pre)) :=
  ⟨rfl, c2_remote_order wEx 1 rfl⟩

/-- C6: the connection address the run constructs from present
environment values h and p is exactly tcp:// followed by h, a colon and
p; it is the address of the first event, the client connect. -/
theorem c6_connect_address (h p : String) (w : World) (fuel : Nat)
    (hh : w.host = some h) (hp2 : w.port = some p) :
    (remote_reconstruction w fuel).trace.head? =
      some (Event.connect ("tcp://" ++ h ++ ":" ++ p)) := by
  unfold remote_reconstruction
  cases hb : (pollTrace w.ready 0 fuel).2 <;>
    simp [hb, szrpcAddress, pyStr, hh, hp2]

/-- Witness for C6: host localhost and port 5555 give
tcp://localhost:5555. -/
theorem c6_witness :
    wEx.host = some "localhost" ∧ wEx.port = some "5555" ∧
    (remote_reconstruction wEx 1).trace.head? =
      some (Event.connect "tcp://localhost:5555") := by
  have h := c6_connect_address "localhost" "5555" wEx 1 rfl rfl
  rw [show ("tcp://" ++ "localhost" ++ ":" ++ "5555") = "tcp://localhost:5555"
        from by decide] at h
  exact ⟨rfl, rfl, h⟩

/-- C8: when the dotenv loader is missing, module initialization
completes (it is a total function), produces exactly one informational
log message and skips the load; when it is installed, load_dotenv is
called exactly once. -/
theorem c8_dotenv_guard :
    moduleInit false = [InitEvent.infoLog dotenvMessage] ∧
    (moduleInit false).count (InitEvent.infoLog dotenvMessage) = 1 ∧
    InitEvent.loadDotenv ∉ moduleInit false ∧
    moduleInit true = [InitEvent.loadDotenv] ∧
    (moduleInit true).count InitEvent.loadDotenv = 1 := by
  refine ⟨rfl, by decide, by decide, rfl, by decide⟩

/-- C3: when the reverse scan of the final result lines finds a line
starting with the marker, and that line has a token at whitespace-split
index 2, the run returns that token. -/
theorem c3_result_token (w : World) (fuel : Nat) (line tok : String)
    (hready : (pollTrace w.ready 0 fuel).2 = true)
    (hfind : w.results.reverse.find? (fun l => pyStartsWith l processedMarker) =
      some line)
    (htok : (pySplit line)[2]? = some tok) :
    (remote_reconstruction w fuel).outcome = some (Except.ok (some tok)) := by
  simp [remote_reconstruction, hready, scanResults, hfind, htok]

/-- Witness for C3: the spec's example lines yield /data/out.tif. -/
theorem c3_witness :
    (pollTrace wEx.ready 0 1).2 = true ∧
    wEx.results.reverse.find? (fun l => pyStartsWith l processedMarker) =
      some "*** Processed /data/out.tif extra" ∧
    (pySplit "*** Processed /data/out.tif extra")[2]? = some "/data/out.tif" ∧
    (remote_reconstruction wEx 1).outcome =
      some (Except.ok (some "/data/out.tif")) :=
  ⟨rfl, by decide, by decide,
    c3_result_token wEx 1 "*** Processed /data/out.tif extra" "/data/out.tif"
      rfl (by decide) (by decide)⟩

/-- C4: when no final result line starts with the marker, the run
returns the absent value None, not an error. -/
theorem c4_result_absent (w : World) (fuel : Nat)
    (hready : (pollTrace w.ready 0 fuel).2 = true)
    (hnone : ∀ l ∈ w.results, pyStartsWith l processedMarker = false) :
    (remote_reconstruction w fuel).outcome = some (Except.ok none) := by
  have hfind : w.results.reverse.find? (fun l => pyStartsWith l processedMarker) =
      none := by
    rw [List.find?_eq_none]
    intro x hx
    simp [hnone x (List.mem_reverse.mp hx)]
  simp [remote_reconstruction, hready, scanResults, hfind]

/-- Witness for C4 at a world with no marker line. -/
theorem c4_witness :
    (pollTrace wExNoMarker.ready 0 1).2 = true ∧
    (∀ l ∈ wExNoMarker.results, pyStartsWith l processedMarker = false) ∧
    (remote_reconstruction wExNoMarker 1).outcome = some (Except.ok none) :=
  ⟨rfl, by decide, c4_result_absent wExNoMarker 1 rfl (by decide)⟩

/-- C5: the export event of a run writes tofuez_remote.yaml directly
inside the configured output directory with exactly the three group
names ezvars, tofu, ezvars_aux; the submit event passes the same path
rendered as a string as the ezvars parameter; both events are unique in
the trace, and for a non-empty output directory the rendered path is the
rendered directory followed by /tofuez_remote.yaml. -/
theorem c5_export_and_submit (w : World) (fuel : Nat)
    (hready : (pollTrace w.ready 0 fuel).2 = true) :
    Event.exportVals (w.outputDir ++ ["tofuez_remote.yaml"])
        ["ezvars", "tofu", "ezvars_aux"] ∈ (remote_reconstruction w fuel).trace ∧
    Event.submit (renderPath (w.outputDir ++ ["tofuez_remote.yaml"])) ∈
      (remote_reconstruction w fuel).trace ∧
    (∀ p g, Event.exportVals p g ∈ (remote_reconstruction w fuel).trace →
      p = w.outputDir ++ ["tofuez_remote.yaml"] ∧ g = ["ezvars", "tofu", "ezvars_aux"]) ∧
    (∀ s, Event.submit s ∈ (remote_reconstruction w fuel).trace →
      s = renderPath (w.outputDir ++ ["tofuez_remote.yaml"])) ∧
    (w.outputDir ≠ [] →
      renderPath (w.outputDir ++ ["tofuez_remote.yaml"]) =
        renderPath w.outputDir ++ "/" ++ "tofuez_remote.yaml") := by
  obtain ⟨pre, hpre, hall⟩ := remote_trace_decomp w fuel hready
  have hnoexp : ∀ p g, Event.exportVals p g ∉ pre := by
    intro p g hmem
    rcases hall _ hmem with h | h <;> simp at h
  have hnosub : ∀ s, Event.submit s ∉ pre := by
    intro s hmem
    rcases hall _ hmem with h | h <;> simp at h
  rw [hpre]
  simp only [postPollEvents]
  refine ⟨by simp, by simp, ?_, ?_, fun hd => renderPath_append_single _ _ hd⟩
  · intro p g hmem
    rcases List.mem_cons.mp hmem with h | hmem2
    · simp at h
    rcases List.mem_append.mp hmem2 with h2 | h3
    · rcases List.mem_append.mp h2 with hp | hs
      · exact absurd hp (hnoexp p g)
      · simp at hs
    · simp only [List.mem_cons, List.not_mem_nil, or_false] at h3
      rcases h3 with h | h | h | h | h | h <;> (simp at h; try exact h)
  · intro s hmem
    rcases List.mem_cons.mp hmem with h | hmem2
    · simp at h
    rcases List.mem_append.mp hmem2 with h2 | h3
    · rcases List.mem_append.mp h2 with hp | hs
      · exact absurd hp (hnosub s)
      · simp at hs
    · simp only [List.mem_cons, List.not_mem_nil, or_false] at h3
      rcases h3 with h | h | h | h | h | h <;> (simp at h; try exact h)

/-- Witness for C5 at a concrete world. -/
theorem c5_witness :
    (pollTrace wEx.ready 0 1).2 = true ∧
    Event.exportVals (wEx.outputDir ++ ["tofuez_remote.yaml"])
        ["ezvars", "tofu", "ezvars_aux"] ∈ (remote_reconstruction wEx 1).trace ∧
    Event.submit (renderPath (wEx.outputDir ++ ["tofuez_remote.yaml"])) ∈
      (remote_reconstruction wEx 1).trace := by
  have h := c5_export_and_submit wEx 1 rfl
  exact ⟨rfl, h.1, h.2.1⟩

/-- C7: after a successful run the output directory and all its
ancestors exist; mkdirP is idempotent, so a second creation of an
existing directory changes nothing and raises nothing; and the mkdir
event immediately precedes the export-write event in the trace. -/
theorem c7_mkdir_before_export (w : World) (fuel : Nat)
    (hready : (pollTrace w.ready 0 fuel).2 = true) :
    w.outputDir ∈ (remote_reconstruction w fuel).finalFs ∧
    (∀ d ∈ w.outputDir.inits, d ∈ (remote_reconstruction w fuel).finalFs) ∧
    mkdirP (mkdirP w.fs w.outputDir) w.outputDir = mkdirP w.fs w.outputDir ∧
    (∃ before rest,
      (remote_reconstruction w fuel).trace =
        before ++ Event.mkdir w.outputDir ::
          Event.exportVals (w.outputDir ++ ["tofuez_remote.yaml"])
            ["ezvars", "tofu", "ezvars_aux"] :: rest) := by
  have hfs : (remote_reconstruction w fuel).finalFs = mkdirP w.fs w.outputDir := by
    simp [remote_reconstruction, hready]
  obtain ⟨pre, hpre, hall⟩ := remote_trace_decomp w fuel hready
  refine ⟨?_, ?_, mkdirP_idem w.fs w.outputDir, ?_⟩
  · rw [hfs]
    exact self_mem_mkdirP w.fs w.outputDir
  · intro d hd
    rw [hfs]
    exact mem_mkdirP_of_mem_inits w.fs w.outputDir d hd
  · refine ⟨Event.connect (szrpcAddress w.host w.port) ::
        (pre ++ [Event.readyCheck true]),
      [Event.submit (renderPath (w.outputDir ++ ["tofuez_remote.yaml"])),
       Event.connectUpdate, Event.wait, Event.scan], ?_⟩
    rw [hpre]
    simp [postPollEvents]

/-- Witness for C7 at a concrete world. -/
theorem c7_witness :
    (pollTrace wEx.ready 0 1).2 = true ∧
    wEx.outputDir ∈ (remote_reconstruction wEx 1).finalFs ∧
    mkdirP (mkdirP wEx.fs wEx.outputDir) wEx.outputDir =
      mkdirP wEx.fs wEx.outputDir := by
  have h := c7_mkdir_before_export wEx 1 rfl
  exact ⟨rfl, h.1, h.2.2.1⟩

/-- C9: when the first marker line found by the reverse scan has no
token at whitespace-split index 2, the run raises IndexError instead of
returning a value or an absent result. -/
theorem c9_short_line_index_error (w : World) (fuel : Nat) (line : String)
    (hready : (pollTrace w.ready 0 fuel).2 = true)
    (hfind : w.results.reverse.find? (fun l => pyStartsWith l processedMarker) =
      some line)
    (hshort : (pySplit line)[2]? = none) :
    (remote_reconstruction w fuel).outcome =
      some (Except.error PyErr.indexError) := by
  simp [remote_reconstruction, hready, scanResults, hfind, hshort]

/-- Witness for C9: a result list whose only line is the bare marker. -/
theorem c9_witness :
    (pollTrace wExShort.ready 0 1).2 = true ∧
    wExShort.results.reverse.find? (fun l => pyStartsWith l processedMarker) =
      some "*** Processed " ∧
    (pySplit "*** Processed ")[2]? = none ∧
    (remote_reconstruction wExShort 1).outcome =
      some (Except.error PyErr.indexError) :=
  ⟨rfl, by decide, by decide,
    c9_short_line_index_error wExShort 1 "*** Processed " rfl (by decide) (by decide)⟩

/-- C10: remote_reconstruction reads the environment at call time: when
either variable is unset at that moment (a state in which get_execute
would choose the local routine), it performs no presence validation and
still proceeds, connecting to the address built from the call-time
values with the literal string None in each unset slot (so tcp://None:p,
tcp://h:None, or tcp://None:None), and when the poll exits it completes
with the ordinary scan outcome rather than a configuration error. -/
theorem c10_unset_env_proceeds (w : World) (fuel : Nat)
    (hunset : w.host = none ∨ w.port = none) :
    get_execute w.host w.port = ExecRoutine.localRecon ∧
    (remote_reconstruction w fuel).trace.head? =
      some (Event.connect (szrpcAddress w.host w.port)) ∧
    (w.host = none →
      szrpcAddress w.host w.port = "tcp://None:" ++ pyStr w.port) ∧
    (w.port = none →
      szrpcAddress w.host w.port = "tcp://" ++ pyStr w.host ++ ":None") ∧
    ((pollTrace w.ready 0 fuel).2 = true →
      (remote_reconstruction w fuel).outcome = some (scanResults w.results)) := by
  refine ⟨?_, ?_, ?_, ?_, ?_⟩
  · rcases hunset with h | h <;> rw [h] <;> simp [get_execute, pyTruthy]
  · unfold remote_reconstruction
    cases hb : (pollTrace w.ready 0 fuel).2 <;> simp [hb]
  · intro h
    rw [h]
    show "tcp://" ++ "None" ++ ":" ++ pyStr w.port = "tcp://None:" ++ pyStr w.port
    rw [show ("tcp://" ++ "None" ++ ":" : String) = "tcp://None:" from by decide]
  · intro h
    rw [h]
    show "tcp://" ++ pyStr w.host ++ ":" ++ "None" =
      "tcp://" ++ pyStr w.host ++ ":None"
    rw [String.append_assoc ("tcp://" ++ pyStr w.host) ":" "None"]
    rw [show (":" ++ "None" : String) = ":None" from by decide]
  · intro hready
    simp [remote_reconstruction, hready]

/-- Witness for C10 at a world with the host set and the port unset,
giving the address tcp://localhost:None. -/
theorem c10_witness :
    (wExMixed.host = none ∨ wExMixed.port = none) ∧
    get_execute wExMixed.host wExMixed.port = ExecRoutine.localRecon ∧
    szrpcAddress wExMixed.host wExMixed.port = "tcp://localhost:None" ∧
    (remote_reconstruction wExMixed 1).trace.head? =
      some (Event.connect (szrpcAddress wExMixed.host wExMixed.port)) := by
  have h := c10_unset_env_proceeds wExMixed 1 (Or.inr rfl)
  exact ⟨Or.inr rfl, h.1, by decide, h.2.1⟩

end Tofu
